import Mathlib

/-!
# XboxOneControllerDriver

A shallow embedding of `XboxOneControllerDriver/XboxOneController.cpp`:

* the two constant byte arrays (`XboxOneControllerHelloMessage`,
  `XboxOneControllerReportDescriptor`), copied byte for byte;
* the three driver methods (`newReportDescriptor`, `handleStart`, `handleReport`), with every
  call into the operating system (superclass, allocator, pipe lookup, pipe write) taken from an
  explicit `IOKit` environment and every observable call recorded in a trace;
* a decoder for HID report descriptors (short items, global / local item state, collections),
  used to read the fields that the descriptor array declares.

Bytes and machine integers are natural numbers; signed HID values are integers.
-/

namespace XboxOneController

/-! ## Constants of the source file -/

/-- Magic words to make the controller work (source line 42). -/
def XboxOneControllerHelloMessage : List Nat := [0x05, 0x20]

/-- Report descriptor of the driver (source lines 49-110), byte for byte and in source order. -/
def XboxOneControllerReportDescriptor : List Nat := [
  0x05, 0x01,
  0x09, 0x05,
  0xa1, 0x01,
  0xa1, 0x00,
  0x09, 0x3f,
  0x75, 0x20,
  0x95, 0x01,
  0x81, 0x02,
  0x05, 0x09,
  0x19, 0x01,
  0x29, 0x10,
  0x15, 0x00,
  0x25, 0x01,
  0x95, 0x10,
  0x75, 0x01,
  0x81, 0x02,
  0x05, 0x01,
  0x09, 0x32,
  0x09, 0x35,
  0x15, 0x00,
  0x26, 0x00, 0x04,
  0x75, 0x10,
  0x95, 0x02,
  0x81, 0x02,
  0x16, 0x00, 0x80,
  0x26, 0xff, 0x7f,
  0x36, 0x00, 0x80,
  0x46, 0xff, 0x7f,
  0x95, 0x02,
  0x75, 0x10,
  0x05, 0x01,
  0x09, 0x01,
  0xa1, 0x00,
  0x09, 0x30,
  0x09, 0x31,
  0x81, 0x02,
  0xc0,
  0x09, 0x01,
  0xa1, 0x00,
  0x09, 0x33,
  0x09, 0x34,
  0x81, 0x02,
  0xc0,
  0xc0,
  0xc0]

/-- The value of `sizeof XboxOneControllerReportDescriptor` (an array of `UInt8`). -/
def sizeofReportDescriptor : Nat := XboxOneControllerReportDescriptor.length

/-- The value of `sizeof XboxOneControllerHelloMessage`. -/
def sizeofHelloMessage : Nat := XboxOneControllerHelloMessage.length

/-! ## Operating-system interface

The source includes only `XboxOneController.h`; the kernel types it uses are declared in the
IOKit headers.  Result codes carry their `IOReturn.h` values, USB endpoint constants their
`USB.h` values. -/

/-- An `IOReturn` result code (a 32-bit value). -/
abbrev IOReturn := Nat

def kIOReturnSuccess : IOReturn := 0
def kIOReturnError : IOReturn := 0xe00002bc
def kIOReturnNoMemory : IOReturn := 0xe00002bd
def kIOReturnBadArgument : IOReturn := 0xe00002c2
def kIOReturnNoSpace : IOReturn := 0xe00002db
/-- The transport result for a transfer that moved fewer bytes than requested. -/
def kIOReturnUnderrun : IOReturn := 0xe00002e7

/-- Endpoint type `kUSBInterrupt`. -/
def kUSBInterrupt : Nat := 3
/-- Endpoint direction `kUSBOut`. -/
def kUSBOut : Nat := 0

/-- A memory descriptor: the bytes it covers.  `getLength` is the number of bytes. -/
structure IOMemoryDescriptor where
  bytes : List Nat
  deriving DecidableEq, Repr

namespace IOMemoryDescriptor

/-- The method `getLength()`. -/
def getLength (d : IOMemoryDescriptor) : Nat := d.bytes.length

/-- The call `readBytes(offset, dst, length)`: the bytes copied out, starting at `offset`, at most
`length` of them and never past the end of the descriptor.  The C++ return value (the number of
bytes copied) is the length of this list. -/
def readBytes (d : IOMemoryDescriptor) (offset length : Nat) : List Nat :=
  (d.bytes.drop offset).take length

/-- The call `writeBytes(offset, src, length)`: copies bytes of `src` into the descriptor from
`offset` on, at most `length` of them and never past the end of the descriptor.  Returns the
descriptor after the copy and the number of bytes copied. -/
def writeBytes (d : IOMemoryDescriptor) (offset : Nat) (src : List Nat) (length : Nat) :
    IOMemoryDescriptor × Nat :=
  let n := min (min length src.length) (d.bytes.length - offset)
  (⟨d.bytes.take offset ++ src.take n ++ d.bytes.drop (offset + n)⟩, n)

end IOMemoryDescriptor

/-- Kernel objects (`IOService`, `IOUSBInterface`, `IOUSBPipe`) are named by a handle. -/
abbrev IOService := Nat
abbrev IOUSBInterface := Nat
abbrev IOUSBPipe := Nat
abbrev IOHIDReportType := Nat
abbrev IOOptionBits := Nat

/-- The fields of `IOUSBFindEndpointRequest` that the driver sets. -/
structure IOUSBFindEndpointRequest where
  type : Nat
  direction : Nat
  deriving DecidableEq, Repr

/-- The services the driver calls and does not define: the superclass `IOUSBHIDDriver`, the
dynamic cast, the buffer allocator and the USB interface and pipe objects.  Each is a parameter;
nothing is assumed about what it answers. -/
structure IOKit where
  /-- The call `super::handleStart(provider)`. -/
  superHandleStart : IOService → Bool
  /-- The call `super::handleReport(descriptor, type, options)`. -/
  superHandleReport : IOMemoryDescriptor → IOHIDReportType → IOOptionBits → IOReturn
  /-- The cast `OSDynamicCast(IOUSBInterface, provider)`; `none` is `nullptr`. -/
  OSDynamicCast : IOService → Option IOUSBInterface
  /-- The call `IOBufferMemoryDescriptor::inTaskWithOptions(kernel_task, 0, capacity)`; `none` is
  `nullptr`. -/
  inTaskWithOptions : Nat → Option IOMemoryDescriptor
  /-- The call `interface->FindNextPipe(current, &request)`; `none` is `nullptr`. -/
  FindNextPipe : IOUSBInterface → Option IOUSBPipe → IOUSBFindEndpointRequest → Option IOUSBPipe
  /-- The call `pipe->Write(buffer, a, b, reqCount)` with its four arguments in source order. -/
  Write : IOUSBPipe → IOMemoryDescriptor → Nat → Nat → Nat → IOReturn

/-- The calls with an effect outside the driver, in the order they are made. -/
inductive Call where
  /-- The call `pipe->Write(buffer, a, b, reqCount)`. -/
  | pipeWrite (pipe : IOUSBPipe) (buffer : IOMemoryDescriptor) (a b reqCount : Nat)
  /-- The call `buffer->release()`. -/
  | release (buffer : IOMemoryDescriptor)
  /-- The call `super::handleReport(descriptor, type, options)`. -/
  | superHandleReport (descriptor : IOMemoryDescriptor) (type : IOHIDReportType)
      (options : IOOptionBits)
  deriving DecidableEq, Repr

/-- Whether a call is a write to a pipe. -/
def Call.isPipeWrite : Call → Bool
  | .pipeWrite _ _ _ _ _ => true
  | _ => false

/-! ## The driver methods -/

/-- The method `XboxOneControllerDriver::newReportDescriptor` (source lines 112-133).  The
argument is the out-parameter `IOMemoryDescriptor **descriptor`: `none` for `nullptr`, otherwise
the pointer value currently stored in the pointed-to slot.  The result is the return code and the
slot after the call. -/
def newReportDescriptor (os : IOKit) (descriptor : Option (Option IOMemoryDescriptor)) :
    IOReturn × Option (Option IOMemoryDescriptor) :=
  match descriptor with
  | none => (kIOReturnBadArgument, none)
  | some slot =>
    match os.inTaskWithOptions sizeofReportDescriptor with
    | none => (kIOReturnNoMemory, some slot)
    | some buffer0 =>
      let (buffer, written) :=
        buffer0.writeBytes 0 XboxOneControllerReportDescriptor sizeofReportDescriptor
      if written ≠ sizeofReportDescriptor then
        (kIOReturnNoSpace, some slot)
      else
        (kIOReturnSuccess, some (some buffer))

/-- The method `XboxOneControllerDriver::handleStart` (source lines 135-182): the result and the
calls made, in order. -/
def handleStart (os : IOKit) (provider : IOService) : Bool × List Call :=
  if !os.superHandleStart provider then
    (false, [])
  else
    match os.OSDynamicCast provider with
    | none => (false, [])
    | some interface =>
      match os.inTaskWithOptions 2 with
      | none => (false, [])
      | some hello0 =>
        let hello := (hello0.writeBytes 0 XboxOneControllerHelloMessage sizeofHelloMessage).1
        let ior0 := kIOReturnError
        let pipeRequest : IOUSBFindEndpointRequest := ⟨kUSBInterrupt, kUSBOut⟩
        let pipeRequest := { pipeRequest with direction := kUSBOut }
        let (ior, calls) :=
          match os.FindNextPipe interface none pipeRequest with
          | some pipeToController =>
            (os.Write pipeToController hello 0 0 hello.getLength,
              [Call.pipeWrite pipeToController hello 0 0 hello.getLength])
          | none => (ior0, [])
        (ior == kIOReturnSuccess, calls ++ [Call.release hello])

/-- The method `XboxOneControllerDriver::handleReport` (source lines 184-202): the result and the
calls made.  `opcode0` is the value the local `opcode` holds before `readBytes` stores into it
(the variable is not initialised in the source). -/
def handleReport (os : IOKit) (opcode0 : Nat) (descriptor : IOMemoryDescriptor)
    (type : IOHIDReportType) (options : IOOptionBits) : IOReturn × List Call :=
  let got := descriptor.readBytes 0 1
  let opcode := got.headD opcode0
  let read := got.length
  if read ≠ 1 then
    (kIOReturnNoMemory, [])
  else if opcode ≠ 0x20 then
    (kIOReturnSuccess, [])
  else
    (os.superHandleReport descriptor type options,
      [Call.superHandleReport descriptor type options])

/-! ## HID report descriptors

The descriptor array is data for the generic HID parser of the host, which is not part of the
driver.  The definitions below read such an array by the item rules of the HID class definition
(version 1.11, section 6.2.2): short items with little-endian data, global items that persist,
local items that are cleared by every main item, signed logical and physical bounds. -/

namespace HID

/-- One short item: the tag (bits 7-4 of the first byte), the type (bits 3-2: 0 main, 1 global,
2 local) and the data bytes. -/
structure Item where
  tag : Nat
  type : Nat
  data : List Nat
  deriving DecidableEq, Repr

/-- Number of data bytes announced by the size bits (bits 1-0) of the first byte of an item. -/
def dataLength (first : Nat) : Nat :=
  match first % 4 with
  | 0 => 0
  | 1 => 1
  | 2 => 2
  | _ => 4

/-- Splits a byte sequence into short items.  Fails when an item announces more data bytes than
remain, or on the first byte `0xFE` of a long item.  Every item takes at least one byte, so `fuel`
equal to the number of bytes is enough. -/
def parseItemsAux : Nat → List Nat → Option (List Item)
  | _, [] => some []
  | 0, _ :: _ => none
  | fuel + 1, first :: rest =>
    if first = 0xFE then none
    else if rest.length < dataLength first then none
    else
      (parseItemsAux fuel (rest.drop (dataLength first))).map
        (fun items => ⟨first / 16, first / 4 % 4, rest.take (dataLength first)⟩ :: items)

/-- The short items of a byte sequence. -/
def parseItems (bytes : List Nat) : Option (List Item) :=
  parseItemsAux bytes.length bytes

/-- Item data read as an unsigned little-endian number. -/
def unsignedValue (data : List Nat) : Nat :=
  data.foldr (fun b acc => b + 256 * acc) 0

/-- Item data read as a signed (two's complement) little-endian number. -/
def signedValue (data : List Nat) : Int :=
  if data.length ≠ 0 ∧ 2 ^ (8 * data.length - 1) ≤ unsignedValue data then
    (unsignedValue data : Int) - 2 ^ (8 * data.length)
  else
    (unsignedValue data : Int)

/-- The global item state table. -/
structure Globals where
  usagePage : Nat := 0
  logicalMinimum : Int := 0
  logicalMaximum : Int := 0
  physicalMinimum : Int := 0
  physicalMaximum : Int := 0
  reportSize : Nat := 0
  reportCount : Nat := 0
  deriving DecidableEq, Repr

/-- The local item state: the usages declared since the last main item, in order (a Usage Minimum
/ Usage Maximum pair contributes the whole range), and a Usage Minimum still waiting for its
Usage Maximum. -/
structure Locals where
  usages : List Nat := []
  usageMinimum : Option Nat := none
  deriving DecidableEq, Repr

/-- A data main item (tag 8 INPUT, 9 OUTPUT, 11 FEATURE) with the item state in effect at it. -/
structure MainItem where
  tag : Nat
  flags : Nat
  usagePage : Nat
  usages : List Nat
  logicalMinimum : Int
  logicalMaximum : Int
  physicalMinimum : Int
  physicalMaximum : Int
  reportSize : Nat
  reportCount : Nat
  deriving DecidableEq, Repr

/-- A node of the descriptor tree: a data main item, or a collection (its kind: 0 physical,
1 application; the usage page and usages in effect at the COLLECTION item; its children). -/
inductive Node where
  | main (item : MainItem)
  | collection (kind : Nat) (usagePage : Nat) (usages : List Nat) (children : List Node)

/-- A collection that has been opened and not yet closed. -/
structure OpenCollection where
  kind : Nat
  usagePage : Nat
  usages : List Nat
  children : List Node

/-- State of the decoder: item state, the open collections (innermost first), the closed
top-level nodes, the data main items met so far (in order), and the largest nesting depth. -/
structure Decoder where
  globals : Globals := {}
  locals : Locals := {}
  stack : List OpenCollection := []
  top : List Node := []
  mains : List MainItem := []
  maxDepth : Nat := 0

/-- Adds a finished node to the innermost open collection, or to the top level. -/
def Decoder.emit (s : Decoder) (n : Node) : Decoder :=
  match s.stack with
  | [] => { s with top := s.top ++ [n] }
  | c :: cs => { s with stack := { c with children := c.children ++ [n] } :: cs }

/-- Processes one item.  Fails on END_COLLECTION without an open collection, on a Usage Maximum
without a Usage Minimum, and on items this decoder does not model (Report ID, Push, Pop, units,
designator and string items, reserved types). -/
def Decoder.step (s : Decoder) (it : Item) : Option Decoder :=
  match it.type, it.tag with
  | 1, 0 => some { s with globals := { s.globals with usagePage := unsignedValue it.data } }
  | 1, 1 => some { s with globals := { s.globals with logicalMinimum := signedValue it.data } }
  | 1, 2 => some { s with globals := { s.globals with logicalMaximum := signedValue it.data } }
  | 1, 3 => some { s with globals := { s.globals with physicalMinimum := signedValue it.data } }
  | 1, 4 => some { s with globals := { s.globals with physicalMaximum := signedValue it.data } }
  | 1, 7 => some { s with globals := { s.globals with reportSize := unsignedValue it.data } }
  | 1, 9 => some { s with globals := { s.globals with reportCount := unsignedValue it.data } }
  | 2, 0 =>
    some { s with locals := { s.locals with usages := s.locals.usages ++ [unsignedValue it.data] } }
  | 2, 1 => some { s with locals := { s.locals with usageMinimum := some (unsignedValue it.data) } }
  | 2, 2 =>
    match s.locals.usageMinimum with
    | none => none
    | some lo =>
      some { s with locals :=
        { usages := s.locals.usages ++
            (List.range (unsignedValue it.data + 1 - lo)).map (fun i => lo + i),
          usageMinimum := none } }
  | 0, 10 =>
    some { s with
      stack := ⟨unsignedValue it.data, s.globals.usagePage, s.locals.usages, []⟩ :: s.stack,
      maxDepth := max s.maxDepth (s.stack.length + 1),
      locals := {} }
  | 0, 12 =>
    match s.stack with
    | [] => none
    | c :: cs =>
      some (Decoder.emit { s with stack := cs, locals := {} }
        (Node.collection c.kind c.usagePage c.usages c.children))
  | 0, t =>
    if t = 8 ∨ t = 9 ∨ t = 11 then
      let m : MainItem :=
        { tag := t, flags := unsignedValue it.data, usagePage := s.globals.usagePage,
          usages := s.locals.usages,
          logicalMinimum := s.globals.logicalMinimum, logicalMaximum := s.globals.logicalMaximum,
          physicalMinimum := s.globals.physicalMinimum,
          physicalMaximum := s.globals.physicalMaximum,
          reportSize := s.globals.reportSize, reportCount := s.globals.reportCount }
      some (Decoder.emit { s with mains := s.mains ++ [m], locals := {} } (Node.main m))
    else none
  | _, _ => none

/-- Processes a list of items from a given state. -/
def Decoder.run : Decoder → List Item → Option Decoder
  | s, [] => some s
  | s, it :: rest =>
    match s.step it with
    | none => none
    | some s1 => Decoder.run s1 rest

/-- Decodes a descriptor: the items are parsed and processed from the initial state, and every
collection must be closed at the end. -/
def decode (bytes : List Nat) : Option Decoder :=
  match parseItems bytes with
  | none => none
  | some items =>
    match Decoder.run {} items with
    | none => none
    | some s => if s.stack.length = 0 then some s else none

/-- The tree of a descriptor: its top-level nodes. -/
def tree (bytes : List Nat) : Option (List Node) :=
  (decode bytes).map (fun s => s.top)

/-- The INPUT main items of a descriptor, in order. -/
def inputs (bytes : List Nat) : Option (List MainItem) :=
  (decode bytes).map (fun s => s.mains.filter (fun m => m.tag = 8))

/-- Bits a main item contributes to a report: `reportSize × reportCount`. -/
def MainItem.bits (m : MainItem) : Nat := m.reportSize * m.reportCount

/-- Total bit length of the input report a descriptor declares. -/
def inputReportBits (bytes : List Nat) : Option Nat :=
  (inputs bytes).map (fun ms => (ms.map MainItem.bits).sum)

/-- One field of a report: a main item declares `reportCount` of them. -/
structure Field where
  usagePage : Nat
  usage : Nat
  logicalMinimum : Int
  logicalMaximum : Int
  physicalMinimum : Int
  physicalMaximum : Int
  reportSize : Nat
  deriving DecidableEq, Repr

/-- The fields of a main item: the usages are handed out in order, and the last usage serves the
fields that remain when there are fewer usages than fields. -/
def MainItem.fields (m : MainItem) : List Field :=
  (List.range m.reportCount).map (fun i =>
    { usagePage := m.usagePage, usage := m.usages.getD i (m.usages.getLastD 0),
      logicalMinimum := m.logicalMinimum, logicalMaximum := m.logicalMaximum,
      physicalMinimum := m.physicalMinimum, physicalMaximum := m.physicalMaximum,
      reportSize := m.reportSize })

/-- The input fields of a descriptor, in report order. -/
def inputFields (bytes : List Nat) : Option (List Field) :=
  (inputs bytes).map (fun ms => (ms.map MainItem.fields).flatten)

/-- The first byte and the data bytes of a short item, as they stand in a descriptor. -/
def Item.bytes (it : Item) : List Nat :=
  (it.tag * 16 + it.type * 4 + (if it.data.length = 4 then 3 else it.data.length)) :: it.data

/-- Collection nesting depth after an item, from the depth before it: COLLECTION (main, tag 10)
opens a level, END_COLLECTION (main, tag 12) closes one. -/
def depthAfter (d : Int) (it : Item) : Int :=
  if it.type = 0 ∧ it.tag = 10 then d + 1
  else if it.type = 0 ∧ it.tag = 12 then d - 1
  else d

/-- The nesting depth after each item of a list, starting from depth `d`. -/
def depths : Int → List Item → List Int
  | _, [] => []
  | d, it :: rest => depthAfter d it :: depths (depthAfter d it) rest

/-- Number of main items with the given tag. -/
def countMain (tag : Nat) (items : List Item) : Nat :=
  (items.filter (fun it => it.type = 0 ∧ it.tag = tag)).length

end HID

/-! ## Sample environments -/

/-- An operating system used to exercise the theorems: every provider is interface 7, pipe 3 is
the interrupt-out pipe, allocation yields a zero-filled buffer of the requested capacity, the
superclass start succeeds and the superclass report handler answers `superResult`; the pipe write
answers `writeResult`. -/
def sampleOS (writeResult superResult : IOReturn) : IOKit where
  superHandleStart := fun _ => true
  superHandleReport := fun _ _ _ => superResult
  OSDynamicCast := fun _ => some 7
  inTaskWithOptions := fun n => some ⟨List.replicate n 0⟩
  FindNextPipe := fun _ _ _ => some 3
  Write := fun _ _ _ _ _ => writeResult

/-- An operating system whose interface 7 has no pipe for any request. -/
def noPipeOS : IOKit where
  superHandleStart := fun _ => true
  superHandleReport := fun _ _ _ => kIOReturnSuccess
  OSDynamicCast := fun _ => some 7
  inTaskWithOptions := fun n => some ⟨List.replicate n 0⟩
  FindNextPipe := fun _ _ _ => none
  Write := fun _ _ _ _ _ => kIOReturnSuccess

/-- An operating system on which no provider is a USB interface. -/
def noInterfaceOS : IOKit where
  superHandleStart := fun _ => true
  superHandleReport := fun _ _ _ => kIOReturnSuccess
  OSDynamicCast := fun _ => none
  inTaskWithOptions := fun n => some ⟨List.replicate n 0⟩
  FindNextPipe := fun _ _ _ => some 3
  Write := fun _ _ _ _ _ => kIOReturnSuccess

/-- An operating system whose allocator fails when `limit` is `none` and otherwise yields a
zero-filled buffer of the requested capacity cut down to at most `limit` bytes. -/
def limitedOS (limit : Option Nat) : IOKit where
  superHandleStart := fun _ => true
  superHandleReport := fun _ _ _ => kIOReturnSuccess
  OSDynamicCast := fun _ => some 7
  inTaskWithOptions := fun n => limit.map (fun k => ⟨List.replicate (min n k) 0⟩)
  FindNextPipe := fun _ _ _ => some 3
  Write := fun _ _ _ _ _ => kIOReturnSuccess

open HID

/-! ## Memory descriptors -/

/-- Writing a whole array at offset 0 into a descriptor of exactly that many bytes replaces the
contents and reports every byte copied. -/
theorem IOMemoryDescriptor.writeBytes_whole (d : IOMemoryDescriptor) (src : List Nat)
    (h : d.getLength = src.length) :
    d.writeBytes 0 src src.length = (⟨src⟩, src.length) := by
  have h1 : d.bytes.length = src.length := h
  simp [IOMemoryDescriptor.writeBytes, h1]

/-- One more unit of fuel than the number of bytes changes nothing. -/
theorem HID.parseItemsAux_succ (fuel : Nat) :
    ∀ bytes : List Nat, bytes.length ≤ fuel →
      parseItemsAux (fuel + 1) bytes = parseItemsAux fuel bytes := by
  induction fuel with
  | zero =>
    intro bytes hb
    have : bytes = [] := List.length_eq_zero.mp (Nat.le_zero.mp hb)
    subst this
    rfl
  | succ f ih =>
    intro bytes hb
    cases bytes with
    | nil => rfl
    | cons first rest =>
      have hrest : rest.length ≤ f := Nat.le_of_succ_le_succ hb
      have hdrop : (rest.drop (dataLength first)).length ≤ f :=
        le_trans (by simp) hrest
      simp only [parseItemsAux]
      rw [ih _ hdrop]

/-- The parser never stops for lack of fuel: any fuel from the number of bytes upwards gives the
result of `parseItems`. -/
theorem HID.parseItemsAux_fuel (bytes : List Nat) (extra : Nat) :
    parseItemsAux (bytes.length + extra) bytes = parseItems bytes := by
  induction extra with
  | zero => rfl
  | succ k ih =>
    rw [← ih]
    exact HID.parseItemsAux_succ (bytes.length + k) bytes (Nat.le_add_right _ _)

/-! ## Report admission: `handleReport` -/

/-- C1: when the one-byte read at offset 0 yields exactly one byte `b`, then for every report
type and option flags: if `b` is 0x20, `handleReport` calls the superclass `handleReport` exactly
once, with the same descriptor, type and options, and returns its result; if `b` is anything
else, `handleReport` returns `kIOReturnSuccess` and makes no call at all. -/
theorem handleReport_one_byte (os : IOKit) (opcode0 : Nat) (descriptor : IOMemoryDescriptor)
    (type : IOHIDReportType) (options : IOOptionBits) (b : Nat)
    (hread : descriptor.readBytes 0 1 = [b]) :
    (b = 0x20 →
      handleReport os opcode0 descriptor type options =
        (os.superHandleReport descriptor type options,
          [Call.superHandleReport descriptor type options])) ∧
    (b ≠ 0x20 →
      handleReport os opcode0 descriptor type options = (kIOReturnSuccess, [])) := by
  constructor
  · intro hb
    simp [handleReport, hread, hb]
  · intro hb
    simp [handleReport, hread, hb]

/-- Witness for C1: a 0x20 report is forwarded (the superclass answer `kIOReturnUnderrun` comes
back), the reports starting with 0x01 and 0x30 are suppressed. -/
theorem handleReport_one_byte_witness :
    handleReport (sampleOS 0 kIOReturnUnderrun) 0 ⟨[0x20, 0x00, 0x07, 0x0e]⟩ 1 0 =
        (kIOReturnUnderrun, [Call.superHandleReport ⟨[0x20, 0x00, 0x07, 0x0e]⟩ 1 0]) ∧
      handleReport (sampleOS 0 kIOReturnUnderrun) 0x20 ⟨[0x01, 0x20]⟩ 1 0 =
        (kIOReturnSuccess, []) ∧
      handleReport (sampleOS 0 kIOReturnUnderrun) 0x20 ⟨[0x30]⟩ 1 0 = (kIOReturnSuccess, []) :=
  ⟨(handleReport_one_byte (sampleOS 0 kIOReturnUnderrun) 0 ⟨[0x20, 0x00, 0x07, 0x0e]⟩ 1 0 0x20
      rfl).1 rfl,
    (handleReport_one_byte (sampleOS 0 kIOReturnUnderrun) 0x20 ⟨[0x01, 0x20]⟩ 1 0 0x01
      rfl).2 (by decide),
    (handleReport_one_byte (sampleOS 0 kIOReturnUnderrun) 0x20 ⟨[0x30]⟩ 1 0 0x30
      rfl).2 (by decide)⟩

/-- C2: when the one-byte read at offset 0 does not yield exactly one byte, `handleReport`
returns `kIOReturnNoMemory`, which is not `kIOReturnSuccess`, and makes no call, whatever value
`opcode0` the local variable `opcode` held. -/
theorem handleReport_short_read (os : IOKit) (opcode0 : Nat) (descriptor : IOMemoryDescriptor)
    (type : IOHIDReportType) (options : IOOptionBits)
    (hread : (descriptor.readBytes 0 1).length ≠ 1) :
    handleReport os opcode0 descriptor type options = (kIOReturnNoMemory, []) ∧
      kIOReturnNoMemory ≠ kIOReturnSuccess := by
  refine ⟨?_, by decide⟩
  simp [handleReport, hread]

/-- Witness for C2: the empty report, with the stale `opcode` value 0x20. -/
theorem handleReport_short_read_witness :
    (IOMemoryDescriptor.readBytes ⟨[]⟩ 0 1).length ≠ 1 ∧
      handleReport (sampleOS 0 0) 0x20 ⟨[]⟩ 1 0 = (kIOReturnNoMemory, []) :=
  ⟨by decide, (handleReport_short_read (sampleOS 0 0) 0x20 ⟨[]⟩ 1 0 (by decide)).1⟩

/-! ## Activation: `handleStart` -/

/-- C3: when the superclass start succeeds, the provider is a USB interface, a 2-byte hello
buffer is allocated and the lookup of an interrupt-out pipe from the start of the interface finds
`pipe`, then `handleStart` makes exactly one pipe write, on `pipe`, of the buffer holding 0x05
0x20, with arguments 0, 0 and length 2 (followed only by the release of the buffer), and it
returns true exactly when that write returns `kIOReturnSuccess`. -/
theorem handleStart_writes_hello (os : IOKit) (provider : IOService) (interface : IOUSBInterface)
    (hello0 : IOMemoryDescriptor) (pipe : IOUSBPipe)
    (hsuper : os.superHandleStart provider = true)
    (hcast : os.OSDynamicCast provider = some interface)
    (halloc : os.inTaskWithOptions 2 = some hello0)
    (hlen : hello0.getLength = 2)
    (hpipe : os.FindNextPipe interface none ⟨kUSBInterrupt, kUSBOut⟩ = some pipe) :
    (handleStart os provider).2 =
        [Call.pipeWrite pipe ⟨[0x05, 0x20]⟩ 0 0 2, Call.release ⟨[0x05, 0x20]⟩] ∧
      ((handleStart os provider).1 = true ↔
        os.Write pipe ⟨[0x05, 0x20]⟩ 0 0 2 = kIOReturnSuccess) := by
  have hw : hello0.writeBytes 0 XboxOneControllerHelloMessage sizeofHelloMessage =
      (⟨[0x05, 0x20]⟩, 2) :=
    IOMemoryDescriptor.writeBytes_whole hello0 XboxOneControllerHelloMessage hlen
  simp [handleStart, hsuper, hcast, halloc, hpipe, hw, IOMemoryDescriptor.getLength]

/-- Witness for C3: with a write that succeeds the start succeeds; with a write that reports an
underrun (a partial transfer) the start fails, after the same single write. -/
theorem handleStart_writes_hello_witness :
    handleStart (sampleOS kIOReturnSuccess 0) 1 =
        (true, [Call.pipeWrite 3 ⟨[0x05, 0x20]⟩ 0 0 2, Call.release ⟨[0x05, 0x20]⟩]) ∧
      handleStart (sampleOS kIOReturnUnderrun 0) 1 =
        (false, [Call.pipeWrite 3 ⟨[0x05, 0x20]⟩ 0 0 2, Call.release ⟨[0x05, 0x20]⟩]) := by
  have h1 := handleStart_writes_hello (sampleOS kIOReturnSuccess 0) 1 7 ⟨[0, 0]⟩ 3
    rfl rfl rfl rfl rfl
  have h2 := handleStart_writes_hello (sampleOS kIOReturnUnderrun 0) 1 7 ⟨[0, 0]⟩ 3
    rfl rfl rfl rfl rfl
  refine ⟨Prod.ext (h1.2.2 rfl) h1.1, Prod.ext ?_ h2.1⟩
  have h3 : ¬ (handleStart (sampleOS kIOReturnUnderrun 0) 1).1 = true :=
    fun h => absurd (h2.2.1 h) (by decide)
  simpa using h3

/-- C4: when the provider is a USB interface on which the lookup of an interrupt-out pipe finds
nothing, `handleStart` returns false and makes no pipe write; the same holds when the provider is
not a USB interface. -/
theorem handleStart_without_pipe (os : IOKit) (provider : IOService) :
    (∀ interface : IOUSBInterface, os.OSDynamicCast provider = some interface →
      os.FindNextPipe interface none ⟨kUSBInterrupt, kUSBOut⟩ = none →
        (handleStart os provider).1 = false ∧
          (handleStart os provider).2.filter Call.isPipeWrite = []) ∧
    (os.OSDynamicCast provider = none →
      (handleStart os provider).1 = false ∧
        (handleStart os provider).2.filter Call.isPipeWrite = []) := by
  constructor
  · intro interface hcast hpipe
    unfold handleStart
    cases hs : os.superHandleStart provider
    · simp
    · cases ha : os.inTaskWithOptions 2 with
      | none => simp [hcast]
      | some hello0 =>
        simp [hcast, hpipe, Call.isPipeWrite]
        decide
  · intro hcast
    unfold handleStart
    cases hs : os.superHandleStart provider <;> simp [hcast]

/-- Witness for C4: an interface without pipes, and a provider that is no interface. -/
theorem handleStart_without_pipe_witness :
    handleStart noPipeOS 1 = (false, [Call.release ⟨[0x05, 0x20]⟩]) ∧
      ((handleStart noPipeOS 1).1 = false ∧
        (handleStart noPipeOS 1).2.filter Call.isPipeWrite = []) ∧
      ((handleStart noInterfaceOS 1).1 = false ∧
        (handleStart noInterfaceOS 1).2.filter Call.isPipeWrite = []) :=
  ⟨by decide, (handleStart_without_pipe noPipeOS 1).1 7 rfl rfl,
    (handleStart_without_pipe noInterfaceOS 1).2 rfl⟩

/-! ## Schema provider: `newReportDescriptor` -/

/-- C10: with a null out-parameter `newReportDescriptor` returns `kIOReturnBadArgument`; with a
non-null one it returns `kIOReturnNoMemory` when the allocator returns no buffer and
`kIOReturnNoSpace` when the number of bytes written differs from the descriptor length, and in
both cases the slot behind the out-parameter keeps the value it had; it returns
`kIOReturnSuccess` exactly when the out-parameter is non-null, a buffer was allocated and the
write reported the full length. -/
theorem newReportDescriptor_errors (os : IOKit) (slot : Option IOMemoryDescriptor) :
    newReportDescriptor os none = (kIOReturnBadArgument, none) ∧
    (os.inTaskWithOptions sizeofReportDescriptor = none →
      newReportDescriptor os (some slot) = (kIOReturnNoMemory, some slot)) ∧
    (∀ buffer0 : IOMemoryDescriptor,
      os.inTaskWithOptions sizeofReportDescriptor = some buffer0 →
      (buffer0.writeBytes 0 XboxOneControllerReportDescriptor sizeofReportDescriptor).2 ≠
        sizeofReportDescriptor →
      newReportDescriptor os (some slot) = (kIOReturnNoSpace, some slot)) ∧
    (∀ descriptor : Option (Option IOMemoryDescriptor),
      (newReportDescriptor os descriptor).1 = kIOReturnSuccess ↔
        descriptor ≠ none ∧
        ∃ buffer0 : IOMemoryDescriptor,
          os.inTaskWithOptions sizeofReportDescriptor = some buffer0 ∧
          (buffer0.writeBytes 0 XboxOneControllerReportDescriptor sizeofReportDescriptor).2 =
            sizeofReportDescriptor) := by
  refine ⟨rfl, ?_, ?_, ?_⟩
  · intro ha
    simp [newReportDescriptor, ha]
  · intro buffer0 ha hw
    simp [newReportDescriptor, ha, hw]
  · intro descriptor
    cases descriptor with
    | none =>
      simp [newReportDescriptor]
      decide
    | some slot2 =>
      cases ha : os.inTaskWithOptions sizeofReportDescriptor with
      | none =>
        simp [newReportDescriptor, ha]
        decide
      | some buffer0 =>
        by_cases hw : (buffer0.writeBytes 0 XboxOneControllerReportDescriptor
            sizeofReportDescriptor).2 = sizeofReportDescriptor
        · simp [newReportDescriptor, ha, hw]
        · simp [newReportDescriptor, ha, hw]
          decide

/-- Witness for C10: no buffer gives `kIOReturnNoMemory`, a buffer cut down to 3 bytes gives
`kIOReturnNoSpace`; both leave the older buffer in the slot. -/
theorem newReportDescriptor_errors_witness :
    newReportDescriptor (limitedOS none) (some (some ⟨[9]⟩)) =
        (kIOReturnNoMemory, some (some ⟨[9]⟩)) ∧
      newReportDescriptor (limitedOS (some 3)) (some (some ⟨[9]⟩)) =
        (kIOReturnNoSpace, some (some ⟨[9]⟩)) ∧
      (newReportDescriptor (sampleOS 0 0) (some none)).1 = kIOReturnSuccess :=
  ⟨(newReportDescriptor_errors (limitedOS none) (some ⟨[9]⟩)).2.1 rfl,
    (newReportDescriptor_errors (limitedOS (some 3)) (some ⟨[9]⟩)).2.2.1 ⟨[0, 0, 0]⟩ rfl
      (by decide),
    ((newReportDescriptor_errors (sampleOS 0 0) none).2.2.2 (some none)).2
      ⟨by simp, ⟨List.replicate 91 0⟩, rfl, by decide⟩⟩

/-! ## The report descriptor -/

/-- C5 as stated fails: the INPUT items of the descriptor do not add up to 272 bits. -/
theorem inputReportBits_ne_272 :
    ¬ (inputReportBits XboxOneControllerReportDescriptor = some 272) := by
  decide

/-- C5, amended: with the REPORT_SIZE and REPORT_COUNT in effect at each INPUT main item, the sum
of `reportSize × reportCount` over the INPUT items of `XboxOneControllerReportDescriptor` is
144 bits, that is 18 bytes: 32 bits for the reserved item and 16, 32, 32 and 32 bits for the
button, trigger and two stick items. -/
theorem inputReportBits_eq_144 :
    inputReportBits XboxOneControllerReportDescriptor = some 144 ∧ 144 = 8 * 18 ∧
      (inputs XboxOneControllerReportDescriptor).map (List.map MainItem.bits) =
        some [32, 16, 32, 32, 32] := by
  decide

/-- C6 as stated fails: the widths of the declared INPUT fields are not one 16-bit field, sixteen
1-bit fields, two 16-bit trigger fields, two 16-bit hat-prefix fields and four 16-bit stick
fields. -/
theorem inputFields_widths_ne_claimed :
    ¬ ((inputFields XboxOneControllerReportDescriptor).map (List.map Field.reportSize) =
      some ([16] ++ List.replicate 16 1 ++ [16, 16] ++ [16, 16] ++ [16, 16, 16, 16])) := by
  decide

/-- C6, amended: the descriptor has five INPUT main items, in this order: the reserved item
(usage 0x3f, REPORT_COUNT 1, REPORT_SIZE 32 from its data byte 0x20), the buttons (REPORT_SIZE 1,
REPORT_COUNT 16), the triggers (REPORT_SIZE 16, REPORT_COUNT 2) and the two sticks (REPORT_SIZE
16, REPORT_COUNT 2 each).  The fields they declare are one 32-bit field, sixteen 1-bit fields and
six 16-bit fields; there is no other INPUT field, in particular none for the hat-prefix items,
which are global items only. -/
theorem inputs_layout :
    (inputs XboxOneControllerReportDescriptor).map
        (List.map (fun m => (m.usagePage, m.usages, m.reportSize, m.reportCount))) =
      some [(0x01, [0x3f], 32, 1),
        (0x09, [1, 2, 3, 4, 5, 6, 7, 8, 9, 10, 11, 12, 13, 14, 15, 16], 1, 16),
        (0x01, [0x32, 0x35], 16, 2),
        (0x01, [0x30, 0x31], 16, 2),
        (0x01, [0x33, 0x34], 16, 2)] ∧
    (inputFields XboxOneControllerReportDescriptor).map (List.map Field.reportSize) =
      some ([32] ++ List.replicate 16 1 ++ [16, 16] ++ [16, 16, 16, 16]) := by
  decide

/-- C7: the input fields of the descriptor are the reserved field (usage 0x3f) followed by
exactly: 16 fields on the Button page (0x09) with usages 1 to 16 and logical range 0..1; 2 fields
on the Generic Desktop page (0x01) with usages Z (0x32) and Rz (0x35) and logical range 0..1024;
4 fields on the Generic Desktop page with usages X (0x30), Y (0x31), Rx (0x33), Ry (0x34),
logical range -32768..32767 and physical range -32768..32767. -/
theorem inputFields_decoded :
    ∃ reserved : Field, reserved.usage = 0x3f ∧
      inputFields XboxOneControllerReportDescriptor =
        some (reserved ::
          ((List.range 16).map (fun i => (⟨0x09, i + 1, 0, 1, 0, 0, 1⟩ : Field)) ++
            [⟨0x01, 0x32, 0, 1024, 0, 0, 16⟩, ⟨0x01, 0x35, 0, 1024, 0, 0, 16⟩] ++
            [⟨0x01, 0x30, -32768, 32767, -32768, 32767, 16⟩,
              ⟨0x01, 0x31, -32768, 32767, -32768, 32767, 16⟩,
              ⟨0x01, 0x33, -32768, 32767, -32768, 32767, 16⟩,
              ⟨0x01, 0x34, -32768, 32767, -32768, 32767, 16⟩])) :=
  ⟨⟨0x01, 0x3f, 0, 0, 0, 0, 32⟩, rfl, by decide⟩

/-- C8: the descriptor splits into 45 short items that give back its 91 bytes exactly; it has
four COLLECTION and four END_COLLECTION items, the nesting depth is never negative and is zero
after the last item; and its tree is one Application collection (usage Game pad) holding one
Physical collection, which holds the reserved, button and trigger INPUT items followed by two
Physical collections with usage Pointer (0x01), the first with one INPUT item of usages X and Y,
the second with one INPUT item of usages Rx and Ry. -/
theorem descriptor_structure :
    (∃ items : List Item,
      parseItems XboxOneControllerReportDescriptor = some items ∧
      items.length = 45 ∧
      (items.map Item.bytes).flatten = XboxOneControllerReportDescriptor ∧
      countMain 10 items = 4 ∧ countMain 12 items = 4 ∧
      (depths 0 items).all (fun d => decide (0 ≤ d)) = true ∧
      (depths 0 items).getLast? = some 0) ∧
    tree XboxOneControllerReportDescriptor =
      some [Node.collection 1 0x01 [0x05]
        [Node.collection 0 0x01 []
          [Node.main ⟨8, 2, 0x01, [0x3f], 0, 0, 0, 0, 32, 1⟩,
            Node.main
              ⟨8, 2, 0x09, [1, 2, 3, 4, 5, 6, 7, 8, 9, 10, 11, 12, 13, 14, 15, 16], 0, 1, 0, 0,
                1, 16⟩,
            Node.main ⟨8, 2, 0x01, [0x32, 0x35], 0, 1024, 0, 0, 16, 2⟩,
            Node.collection 0 0x01 [0x01]
              [Node.main ⟨8, 2, 0x01, [0x30, 0x31], -32768, 32767, -32768, 32767, 16, 2⟩],
            Node.collection 0 0x01 [0x01]
              [Node.main ⟨8, 2, 0x01, [0x33, 0x34], -32768, 32767, -32768, 32767, 16, 2⟩]]]] := by
  refine ⟨⟨_, rfl, ?_, ?_, ?_, ?_, ?_, ?_⟩, ?_⟩
  · decide
  · decide
  · decide
  · decide
  · decide
  · decide
  · rfl

end XboxOneController
